import Mathlib

/-!
# Verification of the Tetris game core (`src/main.ts`)

This file gives a shallow embedding in Lean 4 of the pure game logic of the
falling-block puzzle game implemented in `src/main.ts`, and proves (or refutes)
the specified properties of that logic.

The embedding follows the TypeScript source closely:

* `Block` mirrors the `Block` type (a shape matrix plus an `(x, y)` anchor).
* `State` mirrors the `State` type.
* `blockTypes` and `createRandomBlock` mirror the block factory, with the two
  `Math.random()` draws made explicit as rational parameters in `[0, 1)`.
* `isValidMove`, `stackBlock`, `isGameOver` mirror the helper functions.
* `clearLoop` mirrors the row-clearing `forEach` loop of the `scan` reducer,
  including its in-place `splice`/`unshift` on the live board while iterating a
  reversed snapshot (`gameBoard.slice().reverse()`).
* `reduce` mirrors the `scan` callback of `source$`: the module-level initial
  blocks are the parameters `b1 b2`, and the single `createRandomBlock()` call
  a tick may perform is the parameter `fresh` (the next output of the random
  factory).  JavaScript's in-place mutations of `state` are rendered as
  functional record updates of the produced state value.
* `run` folds `reduce` over a list of events from the initial state, modelling
  the `scan` over the merged keyboard/tick stream.
-/

/-- Constant `Constants.GRID_WIDTH` from the source. -/
def GRID_WIDTH : Nat := 10

/-- Constant `Constants.GRID_HEIGHT` from the source. -/
def GRID_HEIGHT : Nat := 20

/-- The `Block` type from the source: a shape matrix and an `(x, y)` anchor
position (top-left corner of the shape's bounding box). -/
structure Block where
  shape : List (List Nat)
  x : Int
  y : Int
  deriving DecidableEq

/-- The `State` type from the source. -/
structure State where
  gameEnd : Bool
  gameBoard : List (List Nat)
  currentBlock : Block
  nextBlock : Block
  nextBlockShape : List (List Nat)
  score : Nat
  canRestart : Bool
  highScore : Nat
  level : Nat
  deriving DecidableEq

/-- The closed set of events reaching the `scan` reducer: the four keyboard
codes passed by the upstream `filter`, plus the clock tick. -/
inductive GameEvent where
  | keyA
  | keyD
  | keyS
  | keyR
  | tick
  deriving DecidableEq

/-- The fixed catalog of 7 shapes (`blockTypes` in `createRandomBlock`). -/
def blockTypes : List (List (List Nat)) :=
  [[[1, 1], [1, 1]],
   [[1, 1, 1, 1]],
   [[0, 1, 0], [1, 1, 1]],
   [[1, 0], [1, 0], [1, 1]],
   [[0, 1], [0, 1], [1, 1]],
   [[0, 1, 1], [1, 1, 0]],
   [[1, 1, 0], [0, 1, 1]]]

/-- Function `createRandomBlock` from the source.  The two `Math.random()`
results are made explicit as the parameters `r1` (shape draw) and `r2` (column
draw), each a rational in `[0, 1)`.  The source computes
`Math.floor(Math.random() * blockTypes.length)` and
`Math.floor(Math.random() * (GRID_WIDTH - shape[0].length + 1))`. -/
def createRandomBlock (r1 r2 : ℚ) : Block :=
  let randomBlockType := blockTypes.getD (Int.floor (r1 * blockTypes.length)).toNat []
  let randomX :=
    Int.floor (r2 * ((GRID_WIDTH : ℚ) - (randomBlockType.getD 0 []).length + 1))
  { shape := randomBlockType, x := randomX, y := 0 }

/-- The all-empty game board: `GRID_HEIGHT` rows of `GRID_WIDTH` zeroes
(`Array.from({length: GRID_HEIGHT}, () => Array(GRID_WIDTH).fill(0))`). -/
def emptyBoard : List (List Nat) :=
  List.replicate GRID_HEIGHT (List.replicate GRID_WIDTH 0)

/-- Value `initialState` from the source, with the two `createRandomBlock()`
results drawn at module load passed explicitly as `b1` and `b2`. -/
def initialState (b1 b2 : Block) : State :=
  { gameEnd := false
    gameBoard := emptyBoard
    currentBlock := b1
    nextBlock := b2
    nextBlockShape := []
    score := 0
    canRestart := false
    highScore := 0
    level := 1 }

/-- Value `initialStateWithNextShape` from `main()`: `initialState` with
`nextBlockShape` filled in from the next block. -/
def initialStateWithNextShape (b1 b2 : Block) : State :=
  { initialState b1 b2 with nextBlockShape := (initialState b1 b2).nextBlock.shape }

/-- Function `restartGame` from `main()`: the captured initial state with a
fresh empty board. -/
def restartGame (b1 b2 : Block) : State :=
  { initialStateWithNextShape b1 b2 with gameBoard := emptyBoard }

/-- Read of `gameBoard[ry][cx]`.  Callers guard the indices to be in range; the
out-of-range default `0` is never reached under those guards. -/
def boardCell (g : List (List Nat)) (ry cx : Int) : Nat :=
  (g.getD ry.toNat []).getD cx.toNat 0

/-- The per-cell legality test of `isValidMove` for an occupied shape cell that
lands at board column `cx` and board row `ry`:
`boardX >= 0 && boardX < GRID_WIDTH && boardY < GRID_HEIGHT &&
 (boardY < 0 || gameBoard[boardY][boardX] === 0)`. -/
def cellFree (g : List (List Nat)) (cx ry : Int) : Bool :=
  decide (0 ≤ cx) && decide (cx < (GRID_WIDTH : Int)) &&
    decide (ry < (GRID_HEIGHT : Int)) &&
    (decide (ry < 0) || (boardCell g ry cx == 0))

/-- Function `isValidMove` from the source: the move of the current block by
`(deltaX, deltaY)` is valid iff every shape cell equal to `1` maps to a legal
board cell; other shape cells impose no constraint. -/
def isValidMove (s : State) (deltaX deltaY : Int) : Bool :=
  s.currentBlock.shape.enum.all fun p =>
    p.2.enum.all fun q =>
      if q.2 == 1 then
        cellFree s.gameBoard (s.currentBlock.x + q.1 + deltaX)
          (s.currentBlock.y + p.1 + deltaY)
      else true

/-- Write `1` into `gameBoard[ry][cx]`.  A negative column writes no grid cell
(in JavaScript it would set a non-index property of the row array, which no
board read ever observes), and out-of-range indices leave the board unchanged
(`List.set` out of range is the identity). -/
def setCell (g : List (List Nat)) (ry cx : Int) : List (List Nat) :=
  if 0 ≤ cx then g.set ry.toNat ((g.getD ry.toNat []).set cx.toNat 1) else g

/-- The board-mutating effect of `stackBlock` from the source: every shape cell
equal to `1` whose board row is `≥ 0` is stamped into the board.  (The
`newState` with `score += 1` that `stackBlock` also builds is discarded at
every call site, so it is not part of the embedding.) -/
def stackBlock (board : List (List Nat)) (blk : Block) : List (List Nat) :=
  blk.shape.enum.foldl
    (fun acc p =>
      p.2.enum.foldl
        (fun acc2 q =>
          if q.2 == 1 then
            if 0 ≤ blk.y + p.1 then
              setCell acc2 (blk.y + p.1) (blk.x + q.1)
            else acc2
          else acc2)
        acc)
    board

/-- Function `isGameOver` from the source: some cell of row 0 equals `1`. -/
def isGameOver (board : List (List Nat)) : Bool :=
  (board.getD 0 []).any fun cell => cell == 1

/-- Predicate `row.every(cell => cell === 1)` from the row-clearing loop. -/
def isFullRow (row : List Nat) : Bool :=
  row.all fun cell => cell == 1

/-- The number of full rows of a board. -/
def fullRowCount (board : List (List Nat)) : Nat :=
  board.countP isFullRow

/-- The row-clearing loop of the `scan` reducer:
`state.gameBoard.slice().reverse().forEach((row, y) => ...)`.

The first argument is the remaining part of the reversed snapshot, the second
is the running snapshot index `y`, and the accumulator is the live
`(gameBoard, score, level)` triple.  For each full snapshot row the loop
splices index `GRID_HEIGHT - 1 - y` out of the *live* board, unshifts an empty
row, and adds `10` score and one level — exactly as the source does, including
the index shift this causes after an earlier splice in the same pass. -/
def clearLoop : List (List Nat) → Nat → List (List Nat) × Nat × Nat →
    List (List Nat) × Nat × Nat
  | [], _, acc => acc
  | row :: rest, y, acc =>
    if isFullRow row then
      clearLoop rest (y + 1)
        (List.replicate GRID_WIDTH 0 :: acc.1.eraseIdx (GRID_HEIGHT - 1 - y),
          acc.2.1 + 10, acc.2.2 + 1)
    else
      clearLoop rest (y + 1) acc

/-- The `scan` callback of `source$`.  `b1 b2` are the module-level initial
blocks captured by `restartGame`, and `fresh` is the block the single
`createRandomBlock()` call of a locking tick produces.  Each `match` arm
mirrors the corresponding branch of the source; JavaScript's in-place field
mutations become record updates on the returned state. -/
def reduce (b1 b2 fresh : Block) (s : State) (e : GameEvent) : State :=
  match e with
  | GameEvent.keyA =>
    if isValidMove s (-1) 0 then
      { s with currentBlock := { s.currentBlock with x := s.currentBlock.x - 1 } }
    else s
  | GameEvent.keyD =>
    if isValidMove s 1 0 then
      { s with currentBlock := { s.currentBlock with x := s.currentBlock.x + 1 } }
    else s
  | GameEvent.keyS =>
    if isValidMove s 0 1 then
      { s with currentBlock := { s.currentBlock with y := s.currentBlock.y + 1 } }
    else s
  | GameEvent.keyR =>
    if s.canRestart then
      if s.gameEnd then
        { restartGame b1 b2 with
            canRestart := false
            highScore := if s.score > s.highScore then s.score else s.highScore }
      else s
    else s
  | GameEvent.tick =>
    if s.gameEnd then s
    else if !(isValidMove s 0 1) then
      let board1 := stackBlock s.gameBoard s.currentBlock
      let gEnd := isGameOver board1
      let s1 := if gEnd then s else { s with score := s.score + 1 }
      let r := clearLoop board1.reverse 0 (board1, s1.score, s1.level)
      let s2 := { s1 with gameBoard := r.1, score := r.2.1, level := r.2.2 }
      if gEnd then
        { s2 with
            gameEnd := gEnd
            canRestart := true
            highScore := if s2.score > s2.highScore then s2.score else s2.highScore }
      else
        { s2 with
            currentBlock := s2.nextBlock
            nextBlock := fresh
            nextBlockShape := fresh.shape }
    else
      { s with currentBlock := { s.currentBlock with y := s.currentBlock.y + 1 } }

/-- A trace of the game: `scan` folded over a list of events, each event
paired with the block the random factory would hand a locking tick. -/
def run (b1 b2 : Block) (tr : List (Block × GameEvent)) : State :=
  tr.foldl (fun s p => reduce b1 b2 p.1 s p.2) (initialStateWithNextShape b1 b2)

/-- Predicate for claim C8: `canRestart` implies `gameEnd`, as a boolean on
states. -/
def canRestartInv (s : State) : Bool := !s.canRestart || s.gameEnd

/-- The restart result exactly as the specification words it for claim C4:
empty grid, score 0, level 1, not ended, restart gate closed, high score
carried forward, and **two freshly spawned pieces** `f1`, `f2` (the next
outputs of the block factory).  This definition follows the spec's words and
is compared against the source's actual restart result. -/
def restartResultSpec (s : State) (f1 f2 : Block) : State :=
  { gameEnd := false, gameBoard := emptyBoard, currentBlock := f1, nextBlock := f2,
    nextBlockShape := f2.shape, score := 0, canRestart := false,
    highScore := max s.highScore s.score, level := 1 }

/-- The square shape from the catalog, used by the concrete test states. -/
def squareShape : List (List Nat) := [[1, 1], [1, 1]]

/-- A concrete block used as the random factory output in concrete scenarios:
a line piece at column 3. -/
def cFresh : Block := { shape := [[1, 1, 1, 1]], x := 3, y := 0 }

/-- Concrete board for claim C1: rows 18 and 19 have columns 0–7 occupied,
everything else is empty. -/
def c1Board : List (List Nat) :=
  List.replicate 18 (List.replicate 10 0) ++
    [[1, 1, 1, 1, 1, 1, 1, 1, 0, 0], [1, 1, 1, 1, 1, 1, 1, 1, 0, 0]]

/-- Concrete pre-lock state for claim C1: a square piece at `(x, y) = (8, 18)`
is about to lock into `c1Board`, completing rows 18 and 19 simultaneously. -/
def c1State : State :=
  { gameEnd := false, gameBoard := c1Board,
    currentBlock := { shape := squareShape, x := 8, y := 18 },
    nextBlock := { shape := squareShape, x := 4, y := 0 },
    nextBlockShape := squareShape, score := 0, canRestart := false,
    highScore := 0, level := 1 }

/-- Concrete ended state for claim C3: the game has ended but the square piece
at `(4, 0)` sits on an empty board, so every movement command is still
geometrically valid. -/
def c3State : State :=
  { gameEnd := true, gameBoard := emptyBoard,
    currentBlock := { shape := squareShape, x := 4, y := 0 },
    nextBlock := { shape := squareShape, x := 4, y := 0 },
    nextBlockShape := squareShape, score := 2, canRestart := true,
    highScore := 2, level := 1 }

/-- Concrete startup block 1 for claim C4 (drawn at module load). -/
def c4B1 : Block := { shape := squareShape, x := 4, y := 0 }

/-- Concrete startup block 2 for claim C4 (drawn at module load). -/
def c4B2 : Block := { shape := [[0, 1, 0], [1, 1, 1]], x := 2, y := 0 }

/-- Concrete next factory output for claim C4: a line piece, distinct from the
startup blocks. -/
def c4Fresh : Block := { shape := [[1, 1, 1, 1]], x := 3, y := 0 }

/-- Concrete second factory output for claim C4: an S piece. -/
def c4Fresh2 : Block := { shape := [[0, 1, 1], [1, 1, 0]], x := 5, y := 0 }

/-- Concrete ended state for claim C4, with `canRestart = true`. -/
def c4State : State :=
  { gameEnd := true, gameBoard := emptyBoard,
    currentBlock := { shape := squareShape, x := 0, y := 0 },
    nextBlock := c4Fresh, nextBlockShape := [[1, 1, 1, 1]], score := 12,
    canRestart := true, highScore := 7, level := 2 }

/-- Concrete state for claim C5's witness: a square piece at the bottom of an
empty board, one tick away from locking without completing any row. -/
def c5State : State :=
  { gameEnd := false, gameBoard := emptyBoard,
    currentBlock := { shape := squareShape, x := 0, y := 18 },
    nextBlock := { shape := squareShape, x := 4, y := 0 },
    nextBlockShape := squareShape, score := 7, canRestart := false,
    highScore := 9, level := 2 }

/-- Concrete board for claim C6's witness: two occupied cells in row 2 block
the falling square. -/
def c6Board : List (List Nat) :=
  [List.replicate 10 0, List.replicate 10 0,
   [1, 1, 0, 0, 0, 0, 0, 0, 0, 0]] ++ List.replicate 17 (List.replicate 10 0)

/-- Concrete state for claim C6's witness: the square at `(0, 0)` locks at the
top of the board, occupying row 0 and triggering game over. -/
def c6State : State :=
  { gameEnd := false, gameBoard := c6Board,
    currentBlock := { shape := squareShape, x := 0, y := 0 },
    nextBlock := { shape := squareShape, x := 4, y := 0 },
    nextBlockShape := squareShape, score := 5, canRestart := false,
    highScore := 3, level := 1 }

/-- Concrete board for claim C7's witness: rows 18 and 19 have columns 0–7
occupied. -/
def c7Board : List (List Nat) :=
  List.replicate 18 (List.replicate 10 0) ++
    [[1, 1, 1, 1, 1, 1, 1, 1, 0, 0], [1, 1, 1, 1, 1, 1, 1, 1, 0, 0]]

/-- Concrete state for claim C7's witness: the square at `(8, 18)` locks and
completes rows 18 and 19 simultaneously (`k = 2`). -/
def c7State : State :=
  { gameEnd := false, gameBoard := c7Board,
    currentBlock := { shape := squareShape, x := 8, y := 18 },
    nextBlock := { shape := squareShape, x := 4, y := 0 },
    nextBlockShape := squareShape, score := 4, canRestart := false,
    highScore := 40, level := 3 }

/-! ## Helper lemmas -/

/-- An `if` on a shape cell equals `true` exactly when the cell being occupied
forces the branch. -/
lemma if_cell_eq (c : Nat) (b : Bool) :
    ((if c == 1 then b else true) = true) ↔ (c = 1 → b = true) := by
  by_cases h : c = 1 <;> simp [h]

/-- Unfolding of the per-cell legality test into its four conditions. -/
lemma cellFree_eq_true (g : List (List Nat)) (cx ry : Int) :
    cellFree g cx ry = true ↔
      0 ≤ cx ∧ cx < (GRID_WIDTH : Int) ∧ ry < (GRID_HEIGHT : Int) ∧
        (ry < 0 ∨ boardCell g ry cx = 0) := by
  simp [cellFree, and_assoc]

/-- The score and level components of the clearing loop: each full row of the
iterated snapshot adds exactly 10 score and 1 level, independent of the board
splicing. -/
lemma clearLoop_snd (l : List (List Nat)) :
    ∀ (y : Nat) (b : List (List Nat)) (sc lv : Nat),
      (clearLoop l y (b, sc, lv)).2.1 = sc + 10 * l.countP isFullRow ∧
      (clearLoop l y (b, sc, lv)).2.2 = lv + l.countP isFullRow := by
  induction l with
  | nil => intro y b sc lv; simp [clearLoop]
  | cons row rest ih =>
    intro y b sc lv
    by_cases h : isFullRow row = true
    · have h2 := ih (y + 1)
        (List.replicate GRID_WIDTH 0 :: b.eraseIdx (GRID_HEIGHT - 1 - y))
        (sc + 10) (lv + 1)
      simp only [clearLoop, if_pos h, List.countP_cons, h, if_true]
      constructor
      · rw [h2.1]; ring
      · rw [h2.2]; ring
    · have h2 := ih (y + 1) b sc lv
      simp only [clearLoop, if_neg h, List.countP_cons, h, if_false]
      simpa using h2

/-- Score and level of a locking tick that does not end the game: the landing
awards `+1` score and each full row of the post-lock board `+10` score and
`+1` level. -/
lemma reduce_tick_lock (b1 b2 fresh : Block) (s : State)
    (hEnd : s.gameEnd = false) (hMove : isValidMove s 0 1 = false)
    (hOver : isGameOver (stackBlock s.gameBoard s.currentBlock) = false) :
    (reduce b1 b2 fresh s GameEvent.tick).score =
      s.score + 1 + 10 * fullRowCount (stackBlock s.gameBoard s.currentBlock) ∧
    (reduce b1 b2 fresh s GameEvent.tick).level =
      s.level + fullRowCount (stackBlock s.gameBoard s.currentBlock) := by
  have h1 := clearLoop_snd (stackBlock s.gameBoard s.currentBlock).reverse 0
    (stackBlock s.gameBoard s.currentBlock) (s.score + 1) s.level
  simp only [reduce, hEnd, hMove, hOver, Bool.not_false, if_true, if_false,
    Bool.false_eq_true, fullRowCount] at h1 ⊢
  rw [List.countP_reverse] at h1
  exact ⟨h1.1, h1.2⟩

/-- One reducer step preserves the `canRestart → gameEnd` invariant. -/
lemma canRestartInv_step (b1 b2 fresh : Block) (s : State) (e : GameEvent)
    (h : canRestartInv s = true) : canRestartInv (reduce b1 b2 fresh s e) = true := by
  cases e with
  | keyA => simp only [reduce]; split <;> simpa [canRestartInv] using h
  | keyD => simp only [reduce]; split <;> simpa [canRestartInv] using h
  | keyS => simp only [reduce]; split <;> simpa [canRestartInv] using h
  | keyR =>
    simp only [reduce]
    split
    · split
      · simp [canRestartInv, restartGame, initialStateWithNextShape, initialState]
      · exact h
    · exact h
  | tick =>
    cases hg : s.gameEnd with
    | true => simpa [reduce, hg] using h
    | false =>
      have hc : s.canRestart = false := by
        simpa [canRestartInv, hg] using h
      cases hv : isValidMove s 0 1 with
      | true => simpa [reduce, hg, hv, canRestartInv] using h
      | false =>
        cases ho : isGameOver (stackBlock s.gameBoard s.currentBlock) with
        | true => simp [reduce, hg, hv, ho, canRestartInv]
        | false => simp [reduce, hg, hv, ho, canRestartInv, hc]

/-- One reducer step never decreases `highScore`. -/
lemma highScore_step (b1 b2 fresh : Block) (s : State) (e : GameEvent) :
    s.highScore ≤ (reduce b1 b2 fresh s e).highScore := by
  cases e with
  | keyA => simp only [reduce]; split <;> simp
  | keyD => simp only [reduce]; split <;> simp
  | keyS => simp only [reduce]; split <;> simp
  | keyR =>
    simp only [reduce]
    split
    · split
      · simp only [restartGame, initialStateWithNextShape, initialState]
        split <;> omega
      · exact Nat.le_refl _
    · exact Nat.le_refl _
  | tick =>
    simp only [reduce]
    split
    · exact Nat.le_refl _
    · split
      · split
        · simp
          split <;> omega
        · simp
      · exact Nat.le_refl _

/-- Membership in `List.enum` gives an in-range index and a member element. -/
lemma mem_enum_facts {α : Type} {x : Nat × α} {l : List α} (h : x ∈ l.enum) :
    x.1 < l.length ∧ x.2 ∈ l := by
  have h2 := List.mem_enumFrom h
  simp at h2
  refine ⟨h2.1, ?_⟩
  rw [h2.2]
  exact List.getElem_mem h2.1

/-- Catalog facts: every shape is at most 4 wide and rectangular (all rows have
the width of row 0). -/
lemma blockTypes_widths :
    ∀ shape ∈ blockTypes,
      (shape.getD 0 []).length ≤ 4 ∧
        ∀ row ∈ shape, row.length = (shape.getD 0 []).length := by
  decide

/-- A block of rectangular width `W` whose anchor column satisfies
`0 ≤ x` and `x + W ≤ GRID_WIDTH` keeps every shape cell inside the grid's
columns. -/
lemma shape_cols_bounded (blk : Block) (W : Nat)
    (hrows : ∀ row ∈ blk.shape, row.length = W)
    (hx0 : 0 ≤ blk.x) (hxW : blk.x + W ≤ (GRID_WIDTH : Int)) :
    ∀ p ∈ blk.shape.enum, ∀ q ∈ p.2.enum, q.2 = 1 →
      0 ≤ blk.x + q.1 ∧ blk.x + q.1 < (GRID_WIDTH : Int) := by
  intro p hp q hq _
  have hp2 := mem_enum_facts hp
  have hq2 := mem_enum_facts hq
  have hlen := hrows p.2 hp2.2
  have hq1 : q.1 < W := hlen ▸ hq2.1
  omega

/-! ## Claim C1 -/

/-- Claim C1 (refuted, code bug): on the concrete pre-lock state `c1State` the
tick locks a square completing rows 18 and 19 simultaneously, yet after the
clearing pass the board still contains a full row: the pass removed row 19 and
then — the live indices having shifted — the empty row 17 instead of row 18,
leaving the old full row 18 as the new bottom row.  The spec requires the pass
to remove exactly the set of full rows (here both), which would leave an
all-empty board. -/
theorem clear_pass_keeps_full_row :
    isValidMove c1State 0 1 = false ∧
    fullRowCount (stackBlock c1State.gameBoard c1State.currentBlock) = 2 ∧
    (reduce cFresh cFresh cFresh c1State GameEvent.tick).gameBoard =
      List.replicate 19 (List.replicate 10 0) ++ [List.replicate 10 1] ∧
    fullRowCount (reduce cFresh cFresh cFresh c1State GameEvent.tick).gameBoard = 1 := by
  refine ⟨by decide, by decide, by decide, by decide⟩

/-! ## Claim C2 -/

/-- Claim C2: `isValidMove` accepts a placement iff every occupied cell of the
current block's shape, after applying the offset, has a column within
`[0, GRID_WIDTH)`, a row strictly less than `GRID_HEIGHT`, and either a row
below 0 or an unoccupied board cell there; shape cells other than `1` impose
no constraint. -/
theorem isValidMove_iff (s : State) (dx dy : Int) :
    isValidMove s dx dy = true ↔
      ∀ p ∈ s.currentBlock.shape.enum, ∀ q ∈ p.2.enum, q.2 = 1 →
        0 ≤ s.currentBlock.x + q.1 + dx ∧
        s.currentBlock.x + q.1 + dx < (GRID_WIDTH : Int) ∧
        s.currentBlock.y + p.1 + dy < (GRID_HEIGHT : Int) ∧
        (s.currentBlock.y + p.1 + dy < 0 ∨
          boardCell s.gameBoard (s.currentBlock.y + p.1 + dy)
            (s.currentBlock.x + q.1 + dx) = 0) := by
  simp only [isValidMove, List.all_eq_true, if_cell_eq, cellFree_eq_true]

/-! ## Claim C3 -/

/-- Claim C3 counterexample: in the ended state `c3State`, the MoveLeft
command does not return the state unchanged — the piece slides left because
the keyboard branch of the reducer is not gated on `gameEnd`. -/
theorem ended_moveLeft_changes_state :
    c3State.gameEnd = true ∧
    reduce cFresh cFresh cFresh c3State GameEvent.keyA ≠ c3State := by
  refine ⟨rfl, by decide⟩

/-- Claim C3 as amended: after the game has ended, Tick returns the state
unchanged, but MoveLeft, MoveRight and SoftDrop are not gated on `gameEnd` —
each still translates the active piece when the move validator accepts the
move, and leaves the state unchanged otherwise. -/
theorem ended_tick_ignored_movement_ungated (b1 b2 fresh : Block) (s : State)
    (hEnd : s.gameEnd = true) :
    reduce b1 b2 fresh s GameEvent.tick = s ∧
    (isValidMove s (-1) 0 = false → reduce b1 b2 fresh s GameEvent.keyA = s) ∧
    (isValidMove s (-1) 0 = true →
      (reduce b1 b2 fresh s GameEvent.keyA).currentBlock.x = s.currentBlock.x - 1) ∧
    (isValidMove s 1 0 = false → reduce b1 b2 fresh s GameEvent.keyD = s) ∧
    (isValidMove s 1 0 = true →
      (reduce b1 b2 fresh s GameEvent.keyD).currentBlock.x = s.currentBlock.x + 1) ∧
    (isValidMove s 0 1 = false → reduce b1 b2 fresh s GameEvent.keyS = s) ∧
    (isValidMove s 0 1 = true →
      (reduce b1 b2 fresh s GameEvent.keyS).currentBlock.y = s.currentBlock.y + 1) := by
  refine ⟨by simp [reduce, hEnd], ?_, ?_, ?_, ?_, ?_, ?_⟩ <;>
    intro h <;> simp [reduce, h]

/-- Witness for the amended claim C3 at the concrete ended state `c3State`. -/
theorem ended_tick_ignored_witness :
    c3State.gameEnd = true ∧
    (reduce cFresh cFresh cFresh c3State GameEvent.tick = c3State ∧
     (isValidMove c3State (-1) 0 = false →
       reduce cFresh cFresh cFresh c3State GameEvent.keyA = c3State) ∧
     (isValidMove c3State (-1) 0 = true →
       (reduce cFresh cFresh cFresh c3State GameEvent.keyA).currentBlock.x =
         c3State.currentBlock.x - 1) ∧
     (isValidMove c3State 1 0 = false →
       reduce cFresh cFresh cFresh c3State GameEvent.keyD = c3State) ∧
     (isValidMove c3State 1 0 = true →
       (reduce cFresh cFresh cFresh c3State GameEvent.keyD).currentBlock.x =
         c3State.currentBlock.x + 1) ∧
     (isValidMove c3State 0 1 = false →
       reduce cFresh cFresh cFresh c3State GameEvent.keyS = c3State) ∧
     (isValidMove c3State 0 1 = true →
       (reduce cFresh cFresh cFresh c3State GameEvent.keyS).currentBlock.y =
         c3State.currentBlock.y + 1)) :=
  ⟨rfl, ended_tick_ignored_movement_ungated cFresh cFresh cFresh c3State rfl⟩

/-! ## Claim C4 -/

/-- Claim C4 counterexample: at the concrete ended state `c4State`, with
startup blocks `c4B1`/`c4B2` and the factory poised to produce
`c4Fresh`/`c4Fresh2`, the restart result is not the spec's freshly-initialized
state with two freshly spawned pieces: the code's restarted state carries the
startup blocks `c4B1` and `c4B2` (the same after every restart) and draws
nothing from the factory. -/
theorem restart_reuses_startup_blocks :
    c4State.canRestart = true ∧ c4State.gameEnd = true ∧
    reduce c4B1 c4B2 c4Fresh c4State GameEvent.keyR ≠
      restartResultSpec c4State c4Fresh c4Fresh2 ∧
    (reduce c4B1 c4B2 c4Fresh c4State GameEvent.keyR).currentBlock = c4B1 ∧
    (reduce c4B1 c4B2 c4Fresh c4State GameEvent.keyR).nextBlock = c4B2 := by
  refine ⟨rfl, rfl, by decide, by decide, by decide⟩

/-- Claim C4 as amended: Restart is a no-op whenever `canRestart` is false or
`gameEnd` is false; otherwise it returns a freshly initialized state — empty
grid, score 0, level 1, `gameEnd = false`, `canRestart = false`,
`highScore = max(previous highScore, previous score)` — whose two pieces are
the pieces spawned once at program start (`b1`, `b2`), not freshly spawned
ones. -/
theorem restart_amended (b1 b2 fresh : Block) (s : State) :
    ((s.canRestart = false ∨ s.gameEnd = false) →
      reduce b1 b2 fresh s GameEvent.keyR = s) ∧
    (s.canRestart = true → s.gameEnd = true →
      (reduce b1 b2 fresh s GameEvent.keyR).gameBoard = emptyBoard ∧
      (reduce b1 b2 fresh s GameEvent.keyR).score = 0 ∧
      (reduce b1 b2 fresh s GameEvent.keyR).level = 1 ∧
      (reduce b1 b2 fresh s GameEvent.keyR).gameEnd = false ∧
      (reduce b1 b2 fresh s GameEvent.keyR).canRestart = false ∧
      (reduce b1 b2 fresh s GameEvent.keyR).currentBlock = b1 ∧
      (reduce b1 b2 fresh s GameEvent.keyR).nextBlock = b2 ∧
      (reduce b1 b2 fresh s GameEvent.keyR).highScore = max s.highScore s.score) := by
  constructor
  · rintro (h | h) <;> simp [reduce, h]
  · intro h1 h2
    simp only [reduce, h1, h2, if_true, restartGame, initialStateWithNextShape,
      initialState]
    refine ⟨trivial, trivial, trivial, trivial, trivial, trivial, trivial, ?_⟩
    split <;> omega

/-- Witness for the amended claim C4 at the concrete ended state `c4State`. -/
theorem restart_amended_witness :
    c4State.canRestart = true ∧ c4State.gameEnd = true ∧
    ((reduce c4B1 c4B2 c4Fresh c4State GameEvent.keyR).gameBoard = emptyBoard ∧
     (reduce c4B1 c4B2 c4Fresh c4State GameEvent.keyR).score = 0 ∧
     (reduce c4B1 c4B2 c4Fresh c4State GameEvent.keyR).level = 1 ∧
     (reduce c4B1 c4B2 c4Fresh c4State GameEvent.keyR).gameEnd = false ∧
     (reduce c4B1 c4B2 c4Fresh c4State GameEvent.keyR).canRestart = false ∧
     (reduce c4B1 c4B2 c4Fresh c4State GameEvent.keyR).currentBlock = c4B1 ∧
     (reduce c4B1 c4B2 c4Fresh c4State GameEvent.keyR).nextBlock = c4B2 ∧
     (reduce c4B1 c4B2 c4Fresh c4State GameEvent.keyR).highScore =
       max c4State.highScore c4State.score) :=
  ⟨rfl, rfl, (restart_amended c4B1 c4B2 c4Fresh c4State).2 rfl rfl⟩

/-! ## Claim C5 -/

/-- Claim C5: a Tick that locks the active piece (the game not having ended,
the downward move being invalid), produces no full row and does not end the
game yields exactly `score + 1` and an unchanged level. -/
theorem tick_lock_no_clear (b1 b2 fresh : Block) (s : State)
    (hEnd : s.gameEnd = false) (hMove : isValidMove s 0 1 = false)
    (hRows : fullRowCount (stackBlock s.gameBoard s.currentBlock) = 0)
    (hOver : isGameOver (stackBlock s.gameBoard s.currentBlock) = false) :
    (reduce b1 b2 fresh s GameEvent.tick).score = s.score + 1 ∧
    (reduce b1 b2 fresh s GameEvent.tick).level = s.level := by
  have h := reduce_tick_lock b1 b2 fresh s hEnd hMove hOver
  rw [hRows] at h
  simpa using h

/-- Witness for claim C5 at the concrete state `c5State`. -/
theorem tick_lock_no_clear_witness :
    c5State.gameEnd = false ∧ isValidMove c5State 0 1 = false ∧
    fullRowCount (stackBlock c5State.gameBoard c5State.currentBlock) = 0 ∧
    isGameOver (stackBlock c5State.gameBoard c5State.currentBlock) = false ∧
    (reduce cFresh cFresh cFresh c5State GameEvent.tick).score = c5State.score + 1 ∧
    (reduce cFresh cFresh cFresh c5State GameEvent.tick).level = c5State.level := by
  refine ⟨rfl, by decide, by decide, by decide, ?_, ?_⟩
  · exact (tick_lock_no_clear cFresh cFresh cFresh c5State rfl (by decide) (by decide)
      (by decide)).1
  · exact (tick_lock_no_clear cFresh cFresh cFresh c5State rfl (by decide) (by decide)
      (by decide)).2

/-! ## Claim C6 -/

/-- Claim C6: a Tick that locks the active piece such that the post-lock board
has an occupied cell in row 0 yields `gameEnd = true`, `canRestart = true`,
`highScore = max(previous highScore, computed score)`, and leaves the active
piece as the piece that triggered game over rather than replacing it. -/
theorem tick_lock_game_over (b1 b2 fresh : Block) (s : State)
    (hEnd : s.gameEnd = false) (hMove : isValidMove s 0 1 = false)
    (hOver : isGameOver (stackBlock s.gameBoard s.currentBlock) = true) :
    (reduce b1 b2 fresh s GameEvent.tick).gameEnd = true ∧
    (reduce b1 b2 fresh s GameEvent.tick).canRestart = true ∧
    (reduce b1 b2 fresh s GameEvent.tick).highScore =
      max s.highScore (reduce b1 b2 fresh s GameEvent.tick).score ∧
    (reduce b1 b2 fresh s GameEvent.tick).currentBlock = s.currentBlock := by
  simp only [reduce, hEnd, hMove, hOver, Bool.not_false, if_true, if_false,
    Bool.false_eq_true]
  refine ⟨trivial, trivial, ?_, trivial⟩
  split <;> omega

/-- Witness for claim C6 at the concrete state `c6State`. -/
theorem tick_lock_game_over_witness :
    c6State.gameEnd = false ∧ isValidMove c6State 0 1 = false ∧
    isGameOver (stackBlock c6State.gameBoard c6State.currentBlock) = true ∧
    ((reduce cFresh cFresh cFresh c6State GameEvent.tick).gameEnd = true ∧
     (reduce cFresh cFresh cFresh c6State GameEvent.tick).canRestart = true ∧
     (reduce cFresh cFresh cFresh c6State GameEvent.tick).highScore =
       max c6State.highScore (reduce cFresh cFresh cFresh c6State GameEvent.tick).score ∧
     (reduce cFresh cFresh cFresh c6State GameEvent.tick).currentBlock =
       c6State.currentBlock) :=
  ⟨rfl, by decide, by decide,
    tick_lock_game_over cFresh cFresh cFresh c6State rfl (by decide) (by decide)⟩

/-! ## Claim C7 -/

/-- Claim C7: a Tick that locks the active piece, leaves `k ≥ 1` full rows on
the post-lock board and does not end the game yields exactly
`score + 1 + 10 * k` and `level + k`: the landing award and the per-row clear
awards are granted in the same tick. -/
theorem tick_lock_clears (b1 b2 fresh : Block) (s : State) (k : Nat)
    (hEnd : s.gameEnd = false) (hMove : isValidMove s 0 1 = false)
    (hOver : isGameOver (stackBlock s.gameBoard s.currentBlock) = false)
    (hk : fullRowCount (stackBlock s.gameBoard s.currentBlock) = k) (_hk1 : 1 ≤ k) :
    (reduce b1 b2 fresh s GameEvent.tick).score = s.score + 1 + 10 * k ∧
    (reduce b1 b2 fresh s GameEvent.tick).level = s.level + k := by
  have h := reduce_tick_lock b1 b2 fresh s hEnd hMove hOver
  rw [hk] at h
  exact h

/-- Witness for claim C7 at the concrete state `c7State`, a simultaneous
double clear (`k = 2`). -/
theorem tick_lock_clears_witness :
    c7State.gameEnd = false ∧ isValidMove c7State 0 1 = false ∧
    isGameOver (stackBlock c7State.gameBoard c7State.currentBlock) = false ∧
    fullRowCount (stackBlock c7State.gameBoard c7State.currentBlock) = 2 ∧ 1 ≤ 2 ∧
    (reduce cFresh cFresh cFresh c7State GameEvent.tick).score =
      c7State.score + 1 + 10 * 2 ∧
    (reduce cFresh cFresh cFresh c7State GameEvent.tick).level = c7State.level + 2 :=
  ⟨rfl, by decide, by decide, by decide, by decide,
    (tick_lock_clears cFresh cFresh cFresh c7State 2 rfl (by decide) (by decide)
      (by decide) (by decide)).1,
    (tick_lock_clears cFresh cFresh cFresh c7State 2 rfl (by decide) (by decide)
      (by decide) (by decide)).2⟩

/-! ## Claim C8 -/

/-- Claim C8: in every state reachable from the initial state by any sequence
of events, `canRestart` is true only while `gameEnd` is true (stated as the
boolean `canRestartInv`, which is `canRestart → gameEnd`); since this holds
for every trace, it holds after every single transition. -/
theorem canRestart_only_when_ended (b1 b2 : Block) (tr : List (Block × GameEvent)) :
    canRestartInv (run b1 b2 tr) = true := by
  have hinit : canRestartInv (initialStateWithNextShape b1 b2) = true := rfl
  unfold run
  generalize initialStateWithNextShape b1 b2 = s at hinit ⊢
  induction tr generalizing s with
  | nil => simpa using hinit
  | cons p rest ih =>
    simp only [List.foldl]
    exact ih _ (canRestartInv_step b1 b2 p.1 s p.2 hinit)

/-! ## Claim C9 -/

/-- Claim C9: for every state reachable from the initial state and every
further event, the resulting `highScore` is at least the current `highScore`
— the high score is monotonically non-decreasing across the state's history. -/
theorem highScore_monotone (b1 b2 : Block) (tr : List (Block × GameEvent))
    (fresh : Block) (e : GameEvent) :
    (run b1 b2 tr).highScore ≤ (reduce b1 b2 fresh (run b1 b2 tr) e).highScore :=
  highScore_step b1 b2 fresh (run b1 b2 tr) e

/-! ## Claim C10 -/

/-- Claim C10: for every pair of values the random source can produce, the
block factory returns a piece whose shape belongs to the fixed catalog of 7
shapes, whose row is 0, and whose spawn column lies in
`[0, GRID_WIDTH - shapeWidth]` inclusive, so every occupied cell of the
spawned piece has a column within `[0, GRID_WIDTH)`. -/
theorem createRandomBlock_spec (r1 r2 : ℚ)
    (h1 : 0 ≤ r1) (h2 : r1 < 1) (h3 : 0 ≤ r2) (h4 : r2 < 1) :
    (createRandomBlock r1 r2).shape ∈ blockTypes ∧
    (createRandomBlock r1 r2).y = 0 ∧
    0 ≤ (createRandomBlock r1 r2).x ∧
    (createRandomBlock r1 r2).x ≤
      (GRID_WIDTH : Int) - (((createRandomBlock r1 r2).shape.getD 0 []).length : Int) ∧
    ∀ p ∈ (createRandomBlock r1 r2).shape.enum, ∀ q ∈ p.2.enum, q.2 = 1 →
      0 ≤ (createRandomBlock r1 r2).x + q.1 ∧
      (createRandomBlock r1 r2).x + q.1 < (GRID_WIDTH : Int) := by
  have hl : (blockTypes.length : ℚ) = 7 := by norm_num [blockTypes]
  have hf0 : 0 ≤ Int.floor (r1 * (blockTypes.length : ℚ)) :=
    Int.floor_nonneg.mpr (mul_nonneg h1 (by positivity))
  have hf7 : Int.floor (r1 * (blockTypes.length : ℚ)) < 7 := by
    rw [hl]
    apply Int.floor_lt.mpr
    push_cast
    nlinarith
  have hidx : (Int.floor (r1 * (blockTypes.length : ℚ))).toNat < blockTypes.length := by
    have h7 : blockTypes.length = 7 := by decide
    omega
  have hmem : (createRandomBlock r1 r2).shape ∈ blockTypes := by
    show blockTypes.getD _ [] ∈ blockTypes
    rw [List.getD_eq_getElem _ _ hidx]
    exact List.getElem_mem hidx
  obtain ⟨hw4, hrows⟩ := blockTypes_widths _ hmem
  have hWq : ((((createRandomBlock r1 r2).shape.getD 0 []).length : ℚ)) ≤ 4 := by
    exact_mod_cast hw4
  have hpos : (0 : ℚ) <
      (GRID_WIDTH : ℚ) - ((createRandomBlock r1 r2).shape.getD 0 []).length + 1 := by
    have h10 : (GRID_WIDTH : ℚ) = 10 := by norm_num [GRID_WIDTH]
    linarith
  have hx0 : 0 ≤ (createRandomBlock r1 r2).x :=
    Int.floor_nonneg.mpr (mul_nonneg h3 hpos.le)
  have hxlt : (createRandomBlock r1 r2).x <
      (GRID_WIDTH : Int) - (((createRandomBlock r1 r2).shape.getD 0 []).length : Int) + 1 := by
    apply Int.floor_lt.mpr
    push_cast
    exact mul_lt_of_lt_one_left hpos h4
  refine ⟨hmem, rfl, hx0, by omega, ?_⟩
  exact shape_cols_bounded _ _ hrows hx0 (by omega)

/-- Witness for claim C10 at the concrete random draws `1/2` and `1/3`. -/
theorem createRandomBlock_spec_witness :
    (0 : ℚ) ≤ 1/2 ∧ (1/2 : ℚ) < 1 ∧ (0 : ℚ) ≤ 1/3 ∧ (1/3 : ℚ) < 1 ∧
    ((createRandomBlock (1/2) (1/3)).shape ∈ blockTypes ∧
     (createRandomBlock (1/2) (1/3)).y = 0 ∧
     0 ≤ (createRandomBlock (1/2) (1/3)).x ∧
     (createRandomBlock (1/2) (1/3)).x ≤
       (GRID_WIDTH : Int) -
         (((createRandomBlock (1/2) (1/3)).shape.getD 0 []).length : Int) ∧
     ∀ p ∈ (createRandomBlock (1/2) (1/3)).shape.enum, ∀ q ∈ p.2.enum, q.2 = 1 →
       0 ≤ (createRandomBlock (1/2) (1/3)).x + q.1 ∧
       (createRandomBlock (1/2) (1/3)).x + q.1 < (GRID_WIDTH : Int)) :=
  ⟨by norm_num, by norm_num, by norm_num, by norm_num,
    createRandomBlock_spec (1/2) (1/3) (by norm_num) (by norm_num) (by norm_num)
      (by norm_num)⟩
